import Mathlib

/-
Formal model of the session lifecycle manager implemented in src/index.js.

The program keeps two global mutable tables: `sessions` (sessionId ->
{authenticated : boolean}, mirrored to the durable file ./sessions.json by
fs.writeFileSync at each persisting mutation) and `clients` (sessionId ->
live whatsapp-web.js Client handle).  Socket handlers mutate these tables.
The process is single-threaded and the handlers below contain no await
before their table mutations, so each handler execution is modelled as an
atomic state transition on `ServerState`.

JavaScript objects are modelled as association lists over String keys:
assignment to an existing key updates it in place, assignment to a fresh
key appends it, and `delete` removes it.  The on-disk JSON read/write
primitives are external collaborators; the `file` field holds the table
snapshot last written by fs.writeFileSync, and a successful reload parses
that snapshot back.
-/

namespace NodeApp

/-- One persisted session record: `{ authenticated: <bool> }`. -/
structure SessionRecord where
  authenticated : Bool
deriving Repr, DecidableEq

/-- One live client handle in the `clients` table.  `instanceId` identifies
the underlying Client instance (each `new Client(...)` in `createClient`
produces a fresh one); `initCount` counts the `initialize()` calls issued
on this instance. -/
structure ClientHandle where
  sessionId : String
  instanceId : Nat
  initCount : Nat
deriving Repr, DecidableEq

/-- Events emitted on the socket.io channel, restricted to the fields the
handlers actually set. -/
inductive OutEvent where
  | qrEv (sessionId : String)
  | authenticatedEv (sessionId : String)
  | readyEv (sessionId : String)
  | errorEv (status : String) (datamsg : String) (sessionId : Option String)
  | warningEv (status : String) (datamsg : String) (sessionId : Option String)
  | messageSent (msg : String)
  | reconnectStatus (sessionId : String)
  | unwantedRemoved (removed : List String)
deriving Repr, DecidableEq

/-- A call of `client.sendMessage(chatId, ...)` reaching the automation
engine, recorded with the session it was issued on. -/
structure EngineSend where
  sessionId : String
  chatId : String
deriving Repr, DecidableEq

/-- Outcome of an engine call (`client.sendMessage`, or the MessageMedia
constructions that may throw): success, or a thrown error with message. -/
inductive EngineResult where
  | ok
  | err (msg : String)
deriving Repr, DecidableEq

/-- Result of running the deferred flush callback registered by
`socket.once('reconnected', ...)`. -/
inductive FlushResult where
  | invoked
  | referenceError
deriving Repr, DecidableEq

/-- Association-list lookup, mirroring JS property read `obj[k]`. -/
def alookup {α : Type} : List (String × α) → String → Option α
  | [], _ => none
  | (k', v') :: rest, k => if k' = k then some v' else alookup rest k

/-- Association-list write, mirroring JS assignment `obj[k] = v`: an
existing key is updated in place, a fresh key is appended at the end. -/
def ainsert {α : Type} : List (String × α) → String → α → List (String × α)
  | [], k, v => [(k, v)]
  | (k', v') :: rest, k, v =>
      if k' = k then (k, v) :: rest else (k', v') :: ainsert rest k v

/-- Association-list removal, mirroring JS `delete obj[k]`. -/
def aerase {α : Type} : List (String × α) → String → List (String × α)
  | [], _ => []
  | (k', v') :: rest, k =>
      if k' = k then aerase rest k else (k', v') :: aerase rest k

/-- Number of bindings an association list holds for a key. -/
def countKey {α : Type} : List (String × α) → String → Nat
  | [], _ => 0
  | (k', _) :: rest, k => (if k' = k then 1 else 0) + countKey rest k

/-- Global server state: the two in-memory tables, the durable-file
snapshot, the counter supplying fresh Client instance identities, and the
observable traces (socket emissions, engine send calls, `destroy()` calls
by instance, and deferred flush callbacks registered by
`socket.once('reconnected', ...)`). -/
structure ServerState where
  sessions : List (String × SessionRecord)
  file : List (String × SessionRecord)
  clients : List (String × ClientHandle)
  nextInstance : Nat
  emitted : List OutEvent
  engineSends : List EngineSend
  destroyCalls : List Nat
  pendingFlushes : Nat
deriving Repr, DecidableEq

/-- State at process start with no durable file present: `sessions = {}`,
`clients = {}`. -/
def initialState : ServerState :=
  { sessions := [], file := [], clients := [], nextInstance := 0,
    emitted := [], engineSends := [], destroyCalls := [], pendingFlushes := 0 }

/-- Reload of the durable store: `JSON.parse(fs.readFileSync(SESSIONS_FILE))`
at lines 24-31.  The JSON primitives are external collaborators; a
successful parse returns the snapshot last written. -/
def loadStore (file : List (String × SessionRecord)) : List (String × SessionRecord) :=
  file

/-- The `initializeClient` function at src/index.js lines 101-116.  If a
handle already exists for the id it re-runs `initialize()` on it and emits
`reconnect-status`; otherwise it constructs a fresh Client via
`createClient`, runs `initialize()`, and unconditionally writes
`sessions[sessionId] = { authenticated: false }` followed by
`fs.writeFileSync(SESSIONS_FILE, ...)`.  `createClient` and the table
assignment are synchronous; only the engine work started by `initialize()`
is asynchronous, and it never touches the tables. -/
def initializeClient (sessionId : String) (s : ServerState) : ServerState :=
  match alookup s.clients sessionId with
  | some c =>
      { s with
        clients := ainsert s.clients sessionId { c with initCount := c.initCount + 1 },
        emitted := s.emitted ++ [OutEvent.reconnectStatus sessionId] }
  | none =>
      let c : ClientHandle :=
        { sessionId := sessionId, instanceId := s.nextInstance, initCount := 1 }
      let sessions' := ainsert s.sessions sessionId { authenticated := false }
      { s with
        clients := ainsert s.clients sessionId c,
        nextInstance := s.nextInstance + 1,
        sessions := sessions',
        file := sessions' }

/-- The `reconnect-session` handler at lines 206-214 delegates directly to
`initializeClient`. -/
def reconnectSessionHandler (sessionId : String) (s : ServerState) : ServerState :=
  initializeClient sessionId s

/-- The `client.on('authenticated')` handler at lines 59-69: writes
`sessions[sessionId] = { authenticated: true }`, persists the full table
with `fs.writeFileSync`, and emits `authenticated`. -/
def onAuthenticated (sessionId : String) (s : ServerState) : ServerState :=
  let sessions' := ainsert s.sessions sessionId { authenticated := true }
  { s with
    sessions := sessions',
    file := sessions',
    emitted := s.emitted ++ [OutEvent.authenticatedEv sessionId] }

/-- The `client.on('disconnected')` handler at lines 93-96: it ignores which
session disconnected and always calls `initializeClient('')`. -/
def onDisconnected (s : ServerState) : ServerState :=
  initializeClient "" s

/-- JS regex test `/^\d+$/.test(number)` at line 149: at least one
character and every character in `0`..`9`. -/
def jsTestDigits (number : String) : Bool :=
  !number.isEmpty && number.toList.all Char.isDigit

/-- Character-list prefix test used to spell out the JS string operations:
an empty pattern matches anywhere, otherwise heads must agree and the rest
must match. -/
def charsStartWith : List Char → List Char → Bool
  | _, [] => true
  | [], _ :: _ => false
  | c :: cs, p :: ps => c == p && charsStartWith cs ps

/-- Character-list occurrence test: the pattern occurs at some position. -/
def charsContain : List Char → List Char → Bool
  | [], pat => pat.isEmpty
  | c :: rest, pat => charsStartWith (c :: rest) pat || charsContain rest pat

/-- JS `str.startsWith(pat)` and the regex test `/^pat/.test(str)` for a
literal pattern. -/
def strStartsWith (s pat : String) : Bool :=
  charsStartWith s.toList pat.toList

/-- JS `str.includes(pat)`: `pat` occurs as a contiguous substring. -/
def strContains (s pat : String) : Bool :=
  charsContain s.toList pat.toList

/-- The shared catch bodies of the send handlers (lines 155-161 and
193-199): an error whose message contains `Session closed` is emitted as an
`error` with status `reconnect` carrying the sessionId; one containing
`page has been closed` is emitted as a `Warning` (the send-media variant at
line 197 also attaches the sessionId, the send-message variant at line 159
does not); any other error produces no emission. -/
def classifySendFailure (sessionId m : String) (withSession : Bool) : List OutEvent :=
  if strContains m "Session closed" then
    [OutEvent.errorEv "reconnect" "The session is closed. Please Wait While Reauthenticating."
      (some sessionId)]
  else if strContains m "page has been closed" then
    [OutEvent.warningEv "warning" ("Failed to send message: " ++ m)
      (if withSession then some sessionId else none)]
  else []

/-- The `send-message` handler at lines 139-166.  With no handle for the
id it calls `initializeClient` and registers a one-shot
`socket.once('reconnected', ...)` flush callback, returning before any
validation.  With a handle it rejects a recipient failing `/^\d+$/` before
any engine call, otherwise calls `client.sendMessage(number + '@c.us',
message)`; the `engine` parameter supplies that call's outcome. -/
def sendMessageHandler (sessionId number message : String) (engine : EngineResult)
    (s : ServerState) : ServerState :=
  match alookup s.clients sessionId with
  | none =>
      let s1 := initializeClient sessionId s
      { s1 with pendingFlushes := s1.pendingFlushes + 1 }
  | some _ =>
      if !jsTestDigits number then
        { s with emitted := s.emitted ++
            [OutEvent.errorEv "error" "Invalid phone number format!" none] }
      else
        let s1 := { s with engineSends := s.engineSends ++
            [({ sessionId := sessionId, chatId := number ++ "@c.us" } : EngineSend)] }
        match engine with
        | EngineResult.ok =>
            { s1 with emitted := s1.emitted ++
                [OutEvent.messageSent "Message sent successfully!"] }
        | EngineResult.err m =>
            { s1 with emitted := s1.emitted ++ classifySendFailure sessionId m false }

/-- JS truthiness of an optional string field of the request payload: an
absent field and the empty string are falsy. -/
def jsTruthy : Option String → Bool
  | none => false
  | some s => !s.isEmpty

/-- The `send-media` handler at lines 168-204.  With no handle for the id
it behaves like the deferred send-message path.  With a handle it performs
NO recipient validation: it builds the media (inline base64 takes
precedence over a filePath, which falls back to the caption text; only the
`MessageMedia.fromUrl` / `fromFilePath` constructions can throw, with
outcome `build`) and calls `client.sendMessage(number + '@c.us', media,
...)` with outcome `engine`; failures from either go through the same
classification. -/
def sendMediaHandler (sessionId number message : String)
    (base64Data filePath : Option String) (build engine : EngineResult)
    (s : ServerState) : ServerState :=
  match alookup s.clients sessionId with
  | none =>
      let s1 := initializeClient sessionId s
      { s1 with pendingFlushes := s1.pendingFlushes + 1 }
  | some _ =>
      let needsBuild : Bool := !jsTruthy base64Data && jsTruthy filePath
      match (if needsBuild then build else EngineResult.ok) with
      | EngineResult.err m =>
          { s with emitted := s.emitted ++ classifySendFailure sessionId m true }
      | EngineResult.ok =>
          let s1 := { s with engineSends := s.engineSends ++
              [({ sessionId := sessionId, chatId := number ++ "@c.us" } : EngineSend)] }
          match engine with
          | EngineResult.ok =>
              { s1 with emitted := s1.emitted ++
                  [OutEvent.messageSent "Message sent successfully!"] }
          | EngineResult.err m =>
              { s1 with emitted := s1.emitted ++ classifySendFailure sessionId m true }

/-- Top-level functions defined in src/index.js. -/
def sourceTopLevelFunctions : List String :=
  ["createClient", "initializeClient"]

/-- Evaluating the flush callback registered by
`socket.once('reconnected', async () => { await sendMediaToClient(...) })`
in both deferred send paths (lines 144-146 and 173-175).  Its body calls
`sendMediaToClient`, and identifier resolution against the functions
defined in src/index.js fails (in the send-message path the arguments
`base64Data`, `mimeType`, `filename` are also not in scope), so the
callback throws a ReferenceError before any engine call. -/
def fireFlushCallback (s : ServerState) : ServerState × FlushResult :=
  if "sendMediaToClient" ∈ sourceTopLevelFunctions then
    (s, FlushResult.invoked)
  else
    (s, FlushResult.referenceError)

/-- The pending teardown scheduled by `setTimeout` in the `destroy-session`
handler: the callback closes over the handle value read from
`clients[data.sessionId]` at scheduling time, and over the sessionId. -/
structure DestroyTimer where
  capturedClient : Option ClientHandle
  sessionId : String
deriving Repr, DecidableEq

/-- The `destroy-session` handler at lines 221-236: it reads
`clients[data.sessionId]` synchronously and schedules the teardown callback
5000 ms later; nothing else changes at scheduling time. -/
def destroySessionHandler (sessionId : String) (s : ServerState) :
    ServerState × DestroyTimer :=
  (s, { capturedClient := alookup s.clients sessionId, sessionId := sessionId })

/-- Firing the scheduled teardown (the `setTimeout` body at lines 224-231):
if the captured handle was truthy it closes the browser, calls `destroy()`
on that instance, and deletes `clients[data.sessionId]` and
`sessions[data.sessionId]`.  No `fs.writeFileSync` occurs here: the durable
file is left as last written. -/
def fireDestroyTimer (t : DestroyTimer) (s : ServerState) : ServerState :=
  match t.capturedClient with
  | none => s
  | some c =>
      { s with
        destroyCalls := s.destroyCalls ++ [c.instanceId],
        clients := aerase s.clients t.sessionId,
        sessions := aerase s.sessions t.sessionId }

/-- The removal condition of the `remove_unwanted_session` handler at line
244: `!sessionId || typeof sessionId !== 'string' ||
!/^session_/.test(sessionId)`.  Keys of a JS object are strings, so the
`typeof` disjunct is always false; `!sessionId` holds exactly for the empty
string. -/
def unwantedSession (sessionId : String) : Bool :=
  sessionId == "" || !(strStartsWith sessionId "session_")

/-- The `remove_unwanted_session` handler at lines 238-263: removes every
record whose id fails the `/^session_/` pattern, rewrites the durable file
with the remaining table, and emits the removed ids.  The `clients` table
is never referenced. -/
def removeUnwantedSessionsHandler (s : ServerState) : ServerState :=
  let removed := (s.sessions.map Prod.fst).filter unwantedSession
  let kept := s.sessions.filter (fun p => !unwantedSession p.1)
  { s with
    sessions := kept,
    file := kept,
    emitted := s.emitted ++ [OutEvent.unwantedRemoved removed] }

/-- A concrete reachable state: `session_x` is authenticated, its record is
persisted, and a live handle (Client instance 0) exists for it. -/
def exampleLiveState : ServerState :=
  { initialState with
    sessions := [("session_x", { authenticated := true })],
    file := [("session_x", { authenticated := true })],
    clients := [("session_x",
      { sessionId := "session_x", instanceId := 0, initCount := 1 })],
    nextInstance := 1 }

/-- A concrete state as after a process restart: `session_x` is recorded as
authenticated in the reloaded store but no live handle exists yet. -/
def exampleRestartState : ServerState :=
  { initialState with
    sessions := [("session_x", { authenticated := true })],
    file := [("session_x", { authenticated := true })] }

/-- The store table of the pruning example: records `session_a`, `foo`,
`session_b`. -/
def pruneExampleState : ServerState :=
  { initialState with
    sessions := [("session_a", { authenticated := true }),
                 ("foo", { authenticated := false }),
                 ("session_b", { authenticated := true })],
    file := [("session_a", { authenticated := true }),
             ("foo", { authenticated := false }),
             ("session_b", { authenticated := true })] }

/-- Looking up the key just written returns the value written. -/
theorem alookup_ainsert_self {α : Type} (xs : List (String × α)) (k : String) (v : α) :
    alookup (ainsert xs k v) k = some v := by
  induction xs with
  | nil => simp [ainsert, alookup]
  | cons p rest ih =>
    obtain ⟨k', v'⟩ := p
    by_cases h : k' = k
    · simp [ainsert, h, alookup]
    · simp [ainsert, h, alookup, ih]

/-- Writing one key leaves lookups of other keys unchanged. -/
theorem alookup_ainsert_ne {α : Type} (xs : List (String × α)) (k j : String) (v : α)
    (h : j ≠ k) : alookup (ainsert xs k v) j = alookup xs j := by
  induction xs with
  | nil => simp [ainsert, alookup, Ne.symm h]
  | cons p rest ih =>
    obtain ⟨k', v'⟩ := p
    by_cases hk : k' = k
    · subst hk
      simp [ainsert, alookup, Ne.symm h]
    · simp only [ainsert, if_neg hk, alookup]
      by_cases hj : k' = j <;> simp [hj, ih]

/-- A key that looks up to nothing has no bindings. -/
theorem countKey_eq_zero_of_alookup_none {α : Type} (xs : List (String × α)) (k : String)
    (h : alookup xs k = none) : countKey xs k = 0 := by
  induction xs with
  | nil => simp [countKey]
  | cons p rest ih =>
    obtain ⟨k', v'⟩ := p
    by_cases hk : k' = k
    · simp [alookup, hk] at h
    · simp only [alookup, if_neg hk] at h
      simp [countKey, hk, ih h]

/-- Writing a key yields exactly one binding for it when it was absent and
keeps the count otherwise. -/
theorem countKey_ainsert_self {α : Type} (xs : List (String × α)) (k : String) (v : α) :
    countKey (ainsert xs k v) k = max 1 (countKey xs k) := by
  induction xs with
  | nil => simp [ainsert, countKey]
  | cons p rest ih =>
    obtain ⟨k', v'⟩ := p
    by_cases hk : k' = k
    · subst hk
      simp [ainsert, countKey]
    · simp [ainsert, hk, countKey, ih]

/-- Writing one key leaves the binding count of other keys unchanged. -/
theorem countKey_ainsert_ne {α : Type} (xs : List (String × α)) (k j : String) (v : α)
    (h : j ≠ k) : countKey (ainsert xs k v) j = countKey xs j := by
  induction xs with
  | nil => simp [ainsert, countKey, Ne.symm h]
  | cons p rest ih =>
    obtain ⟨k', v'⟩ := p
    by_cases hk : k' = k
    · subst hk
      simp [ainsert, countKey, Ne.symm h]
    · simp [ainsert, hk, countKey, ih]

/-- After deletion the key looks up to nothing. -/
theorem alookup_aerase_self {α : Type} (xs : List (String × α)) (k : String) :
    alookup (aerase xs k) k = none := by
  induction xs with
  | nil => simp [aerase, alookup]
  | cons p rest ih =>
    obtain ⟨k', v'⟩ := p
    by_cases hk : k' = k
    · simpa [aerase, hk] using ih
    · simp [aerase, hk, alookup, ih]

/-- Deleting one key leaves lookups of other keys unchanged. -/
theorem alookup_aerase_ne {α : Type} (xs : List (String × α)) (k j : String)
    (h : j ≠ k) : alookup (aerase xs k) j = alookup xs j := by
  induction xs with
  | nil => simp [aerase, alookup]
  | cons p rest ih =>
    obtain ⟨k', v'⟩ := p
    by_cases hk : k' = k
    · subst hk
      simp [aerase, alookup, Ne.symm h, ih]
    · by_cases hj : k' = j <;> simp [aerase, hk, hj, alookup, ih, h]

/-- The removal condition of `remove_unwanted_session` is exactly failure
of the `/^session_/` test: the empty string fails that test anyway, so the
extra `!sessionId` disjunct adds nothing. -/
theorem unwantedSession_eq (sessionId : String) :
    unwantedSession sessionId = !(strStartsWith sessionId "session_") := by
  unfold unwantedSession
  by_cases h : sessionId = ""
  · subst h; rfl
  · simp [h]

/-- A recipient containing a non-digit character fails `/^\d+$/`. -/
theorem jsTestDigits_false_of_nondigit (number : String)
    (h : ∃ c ∈ number.toList, ¬ c.isDigit) :
    jsTestDigits number = false := by
  obtain ⟨c, hc, hnd⟩ := h
  unfold jsTestDigits
  have : number.toList.all Char.isDigit = false := by
    rw [List.all_eq_false]
    exact ⟨c, hc, by simpa using hnd⟩
  rw [this, Bool.and_false]

/-- Unfolding of `initializeClient` when no handle exists for the id. -/
theorem initializeClient_none (id : String) (s : ServerState)
    (hnone : alookup s.clients id = none) :
    initializeClient id s =
      { s with
        clients := ainsert s.clients id
          { sessionId := id, instanceId := s.nextInstance, initCount := 1 },
        nextInstance := s.nextInstance + 1,
        sessions := ainsert s.sessions id { authenticated := false },
        file := ainsert s.sessions id { authenticated := false } } := by
  simp [initializeClient, hnone]

/-- Unfolding of `initializeClient` when a handle already exists: the
existing instance is re-initialized in place and nothing else changes. -/
theorem initializeClient_some (id : String) (s : ServerState) (c : ClientHandle)
    (hc : alookup s.clients id = some c) :
    initializeClient id s =
      { s with
        clients := ainsert s.clients id { c with initCount := c.initCount + 1 },
        emitted := s.emitted ++ [OutEvent.reconnectStatus id] } := by
  simp [initializeClient, hc]

/-- C1: two `initializeClient` calls for the same sessionId issued
back-to-back (before the first call's asynchronous `initialize()` work
completes — that work never touches the tables) construct exactly one
underlying Client instance: the second call finds the handle written
synchronously by the first and only re-runs `initialize()` on it.  The
`clients` table ends with exactly one binding for the id and keeps at most
one binding per sessionId throughout. -/
theorem claim1_ensureSession_unique (s : ServerState) (id : String)
    (hnone : alookup s.clients id = none)
    (hwf : ∀ k, countKey s.clients k ≤ 1) :
    (initializeClient id (initializeClient id s)).nextInstance = s.nextInstance + 1 ∧
    alookup (initializeClient id (initializeClient id s)).clients id =
      some { sessionId := id, instanceId := s.nextInstance, initCount := 2 } ∧
    countKey (initializeClient id (initializeClient id s)).clients id = 1 ∧
    (∀ k, countKey (initializeClient id (initializeClient id s)).clients k ≤ 1) := by
  have h1 := initializeClient_none id s hnone
  have h2 : alookup (initializeClient id s).clients id =
      some { sessionId := id, instanceId := s.nextInstance, initCount := 1 } := by
    rw [h1]; exact alookup_ainsert_self _ _ _
  have h3 := initializeClient_some id (initializeClient id s) _ h2
  have hzero : countKey s.clients id = 0 :=
    countKey_eq_zero_of_alookup_none s.clients id hnone
  refine ⟨?_, ?_, ?_, ?_⟩
  · rw [h3]; simp [h1]
  · rw [h3]; exact alookup_ainsert_self _ _ _
  · rw [h3]
    simp only [countKey_ainsert_self]
    rw [h1]
    simp [countKey_ainsert_self, hzero]
  · intro k
    rw [h3]
    by_cases hk : k = id
    · subst hk
      simp only [countKey_ainsert_self]
      rw [h1]
      simp [countKey_ainsert_self, hzero]
    · rw [countKey_ainsert_ne _ _ _ _ hk, h1]
      simpa [countKey_ainsert_ne _ _ _ _ hk] using hwf k

/-- C1 witness: instantiated at the empty start state and the sessionId
`session_x`. -/
theorem claim1_ensureSession_unique_witness :
    (initializeClient "session_x" (initializeClient "session_x" initialState)).nextInstance
      = initialState.nextInstance + 1 ∧
    alookup (initializeClient "session_x"
        (initializeClient "session_x" initialState)).clients "session_x" =
      some { sessionId := "session_x", instanceId := initialState.nextInstance,
             initCount := 2 } ∧
    countKey (initializeClient "session_x"
        (initializeClient "session_x" initialState)).clients "session_x" = 1 ∧
    (∀ k, countKey (initializeClient "session_x"
        (initializeClient "session_x" initialState)).clients k ≤ 1) :=
  claim1_ensureSession_unique initialState "session_x" rfl
    (fun k => by simp [initialState, countKey])

/-- C2: after the `authenticated` lifecycle handler runs for a sessionId,
the in-memory store holds `authenticated = true` for that id, the full
table is persisted to the durable file, and reloading the durable store
still yields `authenticated = true` for that id. -/
theorem claim2_authenticated_persists (s : ServerState) (id : String) :
    alookup (onAuthenticated id s).sessions id = some { authenticated := true } ∧
    (onAuthenticated id s).file = (onAuthenticated id s).sessions ∧
    alookup (loadStore (onAuthenticated id s).file) id =
      some { authenticated := true } := by
  refine ⟨?_, rfl, ?_⟩ <;>
    simp [onAuthenticated, loadStore, alookup_ainsert_self]

/-- C10: the `remove_unwanted_session` handler removes from the store
exactly the records whose id does not start with `session_`, rewrites the
durable file to exactly the kept table, reports exactly the removed ids,
and leaves the live `clients` table and destroy trace untouched; on the
example table `{session_a, foo, session_b}` it keeps the two `session_*`
records and reports `[foo]`. -/
theorem claim10_prune_exact (s : ServerState) :
    (removeUnwantedSessionsHandler s).sessions =
      s.sessions.filter (fun p => strStartsWith p.1 "session_") ∧
    (removeUnwantedSessionsHandler s).file =
      (removeUnwantedSessionsHandler s).sessions ∧
    (removeUnwantedSessionsHandler s).emitted = s.emitted ++
      [OutEvent.unwantedRemoved ((s.sessions.map Prod.fst).filter
        (fun id => !(strStartsWith id "session_")))] ∧
    (removeUnwantedSessionsHandler s).clients = s.clients ∧
    (removeUnwantedSessionsHandler s).destroyCalls = s.destroyCalls ∧
    (removeUnwantedSessionsHandler pruneExampleState).sessions =
      [("session_a", { authenticated := true }),
       ("session_b", { authenticated := true })] ∧
    (removeUnwantedSessionsHandler pruneExampleState).file =
      [("session_a", { authenticated := true }),
       ("session_b", { authenticated := true })] ∧
    (removeUnwantedSessionsHandler pruneExampleState).emitted =
      [OutEvent.unwantedRemoved ["foo"]] := by
  have hfun : unwantedSession = fun id => !strStartsWith id "session_" :=
    funext unwantedSession_eq
  refine ⟨?_, rfl, ?_, rfl, rfl, by decide, by decide, by decide⟩
  · simp [removeUnwantedSessionsHandler, unwantedSession_eq]
  · simp [removeUnwantedSessionsHandler, hfun]

/-- C3 counterexample: a `send-media` request whose recipient `abc` is not
digits-only reaches the engine — the call is recorded and no
invalid-recipient error is emitted (the digits-only check exists only in
the `send-message` handler). -/
theorem claim3_counterexample :
    (sendMediaHandler "session_x" "abc" "hi" none none EngineResult.ok EngineResult.ok
        exampleLiveState).engineSends =
      [{ sessionId := "session_x", chatId := "abc@c.us" }] ∧
    (sendMediaHandler "session_x" "abc" "hi" none none EngineResult.ok EngineResult.ok
        exampleLiveState).emitted =
      [OutEvent.messageSent "Message sent successfully!"] :=
  ⟨rfl, rfl⟩

/-- C3 amended: with a live handle, `send-message` rejects a recipient
containing a non-digit character with the invalid-format error and makes no
engine call, but `send-media` performs no recipient validation: with no
media payload attached it always issues the engine call for the same
recipient. -/
theorem claim3_amended_digit_check (s : ServerState)
    (sessionId number message : String) (engine : EngineResult) (c : ClientHandle)
    (hc : alookup s.clients sessionId = some c)
    (hbad : ∃ ch ∈ number.toList, ¬ ch.isDigit) :
    (sendMessageHandler sessionId number message engine s).emitted =
      s.emitted ++ [OutEvent.errorEv "error" "Invalid phone number format!" none] ∧
    (sendMessageHandler sessionId number message engine s).engineSends =
      s.engineSends ∧
    (sendMediaHandler sessionId number message none none EngineResult.ok engine s).engineSends
      = s.engineSends ++ [{ sessionId := sessionId, chatId := number ++ "@c.us" }] := by
  have hd := jsTestDigits_false_of_nondigit number hbad
  refine ⟨?_, ?_, ?_⟩ <;> cases engine <;>
    simp [sendMessageHandler, sendMediaHandler, hc, hd, jsTruthy]

/-- C3 witness: instantiated at the live-handle state with recipient
`12a34`. -/
theorem claim3_amended_digit_check_witness :
    (sendMessageHandler "session_x" "12a34" "hi" EngineResult.ok exampleLiveState).emitted =
      exampleLiveState.emitted ++
        [OutEvent.errorEv "error" "Invalid phone number format!" none] ∧
    (sendMessageHandler "session_x" "12a34" "hi" EngineResult.ok exampleLiveState).engineSends
      = exampleLiveState.engineSends ∧
    (sendMediaHandler "session_x" "12a34" "hi" none none EngineResult.ok EngineResult.ok
        exampleLiveState).engineSends =
      exampleLiveState.engineSends ++
        [{ sessionId := "session_x", chatId := "12a34" ++ "@c.us" }] :=
  claim3_amended_digit_check exampleLiveState "session_x" "12a34" "hi" EngineResult.ok
    { sessionId := "session_x", instanceId := 0, initCount := 1 } rfl
    ⟨'a', by decide, by decide⟩

/-- C9 counterexample: with a live handle and a digits-only recipient, an
engine send failure whose message matches neither `Session closed` nor
`page has been closed` is silently dropped — the engine call is recorded
yet nothing is emitted. -/
theorem claim9_counterexample :
    (sendMessageHandler "session_x" "123" "hi"
        (EngineResult.err "Evaluation failed: boom") exampleLiveState).engineSends =
      [{ sessionId := "session_x", chatId := "123@c.us" }] ∧
    (sendMessageHandler "session_x" "123" "hi"
        (EngineResult.err "Evaluation failed: boom") exampleLiveState).emitted = [] :=
  ⟨rfl, rfl⟩

/-- C9 amended: a failing `send-message` engine call is classified by its
message text: one containing `Session closed` is surfaced as an `error`
with status `reconnect` and the sessionId; otherwise one containing
`page has been closed` is surfaced as a warning; any other failure produces
no emission at all. -/
theorem claim9_amended_classified (s : ServerState)
    (sessionId number message m : String) (c : ClientHandle)
    (hc : alookup s.clients sessionId = some c)
    (hnum : jsTestDigits number = true) :
    (sendMessageHandler sessionId number message (EngineResult.err m) s).engineSends =
      s.engineSends ++ [{ sessionId := sessionId, chatId := number ++ "@c.us" }] ∧
    (strContains m "Session closed" = true →
      (sendMessageHandler sessionId number message (EngineResult.err m) s).emitted =
        s.emitted ++ [OutEvent.errorEv "reconnect"
          "The session is closed. Please Wait While Reauthenticating." (some sessionId)]) ∧
    (strContains m "Session closed" = false →
      strContains m "page has been closed" = true →
      (sendMessageHandler sessionId number message (EngineResult.err m) s).emitted =
        s.emitted ++
          [OutEvent.warningEv "warning" ("Failed to send message: " ++ m) none]) ∧
    (strContains m "Session closed" = false →
      strContains m "page has been closed" = false →
      (sendMessageHandler sessionId number message (EngineResult.err m) s).emitted =
        s.emitted) := by
  refine ⟨?_, ?_, ?_, ?_⟩ <;> intros <;>
    simp_all [sendMessageHandler, classifySendFailure, hc, hnum]

/-- C9 witness: a `Session closed` engine failure at the live-handle state
is surfaced with status `reconnect` and the sessionId. -/
theorem claim9_amended_classified_witness :
    (sendMessageHandler "session_x" "123" "hi"
        (EngineResult.err "Protocol error: Session closed.") exampleLiveState).emitted =
      exampleLiveState.emitted ++ [OutEvent.errorEv "reconnect"
        "The session is closed. Please Wait While Reauthenticating."
        (some "session_x")] :=
  (claim9_amended_classified exampleLiveState "session_x" "123" "hi"
      "Protocol error: Session closed."
      { sessionId := "session_x", instanceId := 0, initCount := 1 } rfl rfl).2.1
    (by decide)

/-- C5 counterexample: destroying the known session `session_x` and letting
the grace timer fire removes the handle entry and the in-memory record, yet
the durable file still contains the record — the handler performs no
`fs.writeFileSync`, so the file is not rewritten to reflect the removal. -/
theorem claim5_counterexample :
    alookup (fireDestroyTimer (destroySessionHandler "session_x" exampleLiveState).2
        (destroySessionHandler "session_x" exampleLiveState).1).clients "session_x"
      = none ∧
    alookup (fireDestroyTimer (destroySessionHandler "session_x" exampleLiveState).2
        (destroySessionHandler "session_x" exampleLiveState).1).sessions "session_x"
      = none ∧
    (fireDestroyTimer (destroySessionHandler "session_x" exampleLiveState).2
        (destroySessionHandler "session_x" exampleLiveState).1).file =
      [("session_x", { authenticated := true })] :=
  ⟨rfl, rfl, rfl⟩

/-- C5 amended: `destroy-session` on a known session changes nothing at
scheduling time; when the grace timer fires it removes the handle entry and
the in-memory SessionRecord but leaves the durable file exactly as last
written (the removal is persisted only by a later store write).  On an
unknown sessionId the fired timer changes nothing. -/
theorem claim5_amended_destroy (s : ServerState) (id : String) :
    (destroySessionHandler id s).1 = s ∧
    ((∃ c, alookup s.clients id = some c) →
      alookup (fireDestroyTimer (destroySessionHandler id s).2 s).clients id = none ∧
      alookup (fireDestroyTimer (destroySessionHandler id s).2 s).sessions id = none ∧
      (fireDestroyTimer (destroySessionHandler id s).2 s).file = s.file) ∧
    (alookup s.clients id = none →
      fireDestroyTimer (destroySessionHandler id s).2 s = s) := by
  refine ⟨rfl, ?_, ?_⟩
  · rintro ⟨c, hc⟩
    simp [destroySessionHandler, fireDestroyTimer, hc, alookup_aerase_self]
  · intro hn
    simp [destroySessionHandler, fireDestroyTimer, hn]

/-- C5 witness: the known-session branch instantiated at the live-handle
state. -/
theorem claim5_amended_destroy_witness :
    alookup (fireDestroyTimer (destroySessionHandler "session_x" exampleLiveState).2
        exampleLiveState).clients "session_x" = none ∧
    alookup (fireDestroyTimer (destroySessionHandler "session_x" exampleLiveState).2
        exampleLiveState).sessions "session_x" = none ∧
    (fireDestroyTimer (destroySessionHandler "session_x" exampleLiveState).2
        exampleLiveState).file = exampleLiveState.file :=
  (claim5_amended_destroy exampleLiveState "session_x").2.1
    ⟨{ sessionId := "session_x", instanceId := 0, initCount := 1 }, rfl⟩

/-- C6 counterexample: `destroy-session` for the live session `session_x`
followed immediately by `initializeClient` within the grace window never
constructs a fresh Client instance (the handle entry is still present, so
the old instance is merely re-initialized — `nextInstance` is unchanged),
and once the timer fires the id is left with no handle and no record at
all: no fresh Ready-capable handle distinct from the old one ever arises. -/
theorem claim6_counterexample :
    (initializeClient "session_x"
        (destroySessionHandler "session_x" exampleLiveState).1).nextInstance =
      exampleLiveState.nextInstance ∧
    alookup (fireDestroyTimer (destroySessionHandler "session_x" exampleLiveState).2
        (initializeClient "session_x"
          (destroySessionHandler "session_x" exampleLiveState).1)).clients "session_x"
      = none ∧
    alookup (fireDestroyTimer (destroySessionHandler "session_x" exampleLiveState).2
        (initializeClient "session_x"
          (destroySessionHandler "session_x" exampleLiveState).1)).sessions "session_x"
      = none :=
  ⟨rfl, rfl, rfl⟩

/-- C6 amended: an `initializeClient` issued during the grace window finds
the old handle still in the table and re-runs `initialize()` on that same
instance (no fresh handle is constructed); the non-cancellable teardown
then calls `destroy()` on the old instance once and deletes the handle
entry and the session record, leaving the id with no live handle. -/
theorem claim6_amended_grace (s : ServerState) (id : String) (c : ClientHandle)
    (hc : alookup s.clients id = some c) :
    (initializeClient id (destroySessionHandler id s).1).nextInstance = s.nextInstance ∧
    alookup (initializeClient id (destroySessionHandler id s).1).clients id =
      some { c with initCount := c.initCount + 1 } ∧
    alookup (fireDestroyTimer (destroySessionHandler id s).2
        (initializeClient id (destroySessionHandler id s).1)).clients id = none ∧
    alookup (fireDestroyTimer (destroySessionHandler id s).2
        (initializeClient id (destroySessionHandler id s).1)).sessions id = none ∧
    (fireDestroyTimer (destroySessionHandler id s).2
        (initializeClient id (destroySessionHandler id s).1)).destroyCalls =
      s.destroyCalls ++ [c.instanceId] := by
  have h1 := initializeClient_some id s c hc
  refine ⟨?_, ?_, ?_, ?_, ?_⟩
  · show (initializeClient id s).nextInstance = s.nextInstance
    rw [h1]
  · show alookup (initializeClient id s).clients id = _
    rw [h1]
    exact alookup_ainsert_self _ _ _
  · simp [destroySessionHandler, fireDestroyTimer, hc, alookup_aerase_self]
  · simp [destroySessionHandler, fireDestroyTimer, hc, alookup_aerase_self]
  · show (fireDestroyTimer _ (initializeClient id s)).destroyCalls = _
    simp [destroySessionHandler, fireDestroyTimer, hc, h1]

/-- C6 witness: instantiated at the live-handle state. -/
theorem claim6_amended_grace_witness :
    (initializeClient "session_x"
        (destroySessionHandler "session_x" exampleLiveState).1).nextInstance =
      exampleLiveState.nextInstance ∧
    alookup (initializeClient "session_x"
        (destroySessionHandler "session_x" exampleLiveState).1).clients "session_x" =
      some { sessionId := "session_x", instanceId := 0, initCount := 2 } ∧
    alookup (fireDestroyTimer (destroySessionHandler "session_x" exampleLiveState).2
        (initializeClient "session_x"
          (destroySessionHandler "session_x" exampleLiveState).1)).clients "session_x"
      = none ∧
    alookup (fireDestroyTimer (destroySessionHandler "session_x" exampleLiveState).2
        (initializeClient "session_x"
          (destroySessionHandler "session_x" exampleLiveState).1)).sessions "session_x"
      = none ∧
    (fireDestroyTimer (destroySessionHandler "session_x" exampleLiveState).2
        (initializeClient "session_x"
          (destroySessionHandler "session_x" exampleLiveState).1)).destroyCalls =
      exampleLiveState.destroyCalls ++ [0] :=
  claim6_amended_grace exampleLiveState "session_x"
    { sessionId := "session_x", instanceId := 0, initCount := 1 } rfl

/-- C7 counterexample: at the restart state, `session_x` is recorded as
authenticated and has no live handle; constructing a handle for it
overwrites the record to `authenticated = false` instead of leaving it
unchanged. -/
theorem claim7_counterexample :
    alookup exampleRestartState.sessions "session_x" = some { authenticated := true } ∧
    alookup exampleRestartState.clients "session_x" = none ∧
    alookup (initializeClient "session_x" exampleRestartState).sessions "session_x" =
      some { authenticated := false } :=
  ⟨rfl, rfl, rfl⟩

/-- C7 amended: when no live handle exists for an id, handle construction
(by `initializeClient`, to which `reconnect-session` delegates)
unconditionally writes `authenticated = false` for that id and persists the
table, overwriting any existing record; only when a live handle already
exists does the call leave the session table and the durable file
untouched. -/
theorem claim7_amended_overwrite (s : ServerState) (id : String) :
    reconnectSessionHandler id s = initializeClient id s ∧
    (alookup s.clients id = none →
      alookup (initializeClient id s).sessions id = some { authenticated := false } ∧
      (initializeClient id s).file = (initializeClient id s).sessions) ∧
    (∀ c, alookup s.clients id = some c →
      (initializeClient id s).sessions = s.sessions ∧
      (initializeClient id s).file = s.file) := by
  refine ⟨rfl, ?_, ?_⟩
  · intro hn
    rw [initializeClient_none id s hn]
    exact ⟨alookup_ainsert_self _ _ _, rfl⟩
  · intro c hc
    rw [initializeClient_some id s c hc]
    exact ⟨rfl, rfl⟩

/-- C7 witness: the no-handle branch instantiated at the restart state,
where the persisted record said `authenticated = true`. -/
theorem claim7_amended_overwrite_witness :
    alookup (initializeClient "session_x" exampleRestartState).sessions "session_x" =
      some { authenticated := false } ∧
    (initializeClient "session_x" exampleRestartState).file =
      (initializeClient "session_x" exampleRestartState).sessions :=
  (claim7_amended_overwrite exampleRestartState "session_x").2.1 rfl

/-- C8 counterexample: at the empty start state an engine disconnect runs
the `disconnected` handler, which calls `initializeClient('')`: a handle
and a session record are silently created under the empty-string
identifier. -/
theorem claim8_counterexample :
    alookup (onDisconnected initialState).clients "" =
      some { sessionId := "", instanceId := 0, initCount := 1 } ∧
    alookup (onDisconnected initialState).sessions "" =
      some { authenticated := false } :=
  ⟨rfl, rfl⟩

/-- C8 amended: the `disconnected` handler ignores which session
disconnected and always calls `initializeClient` with the empty-string
identifier; whenever no empty-id handle exists this constructs a handle and
a record under the empty id (and otherwise re-initializes the empty-id
handle). -/
theorem claim8_amended_empty_reinit (s : ServerState)
    (hn : alookup s.clients "" = none) :
    onDisconnected s = initializeClient "" s ∧
    alookup (onDisconnected s).clients "" =
      some { sessionId := "", instanceId := s.nextInstance, initCount := 1 } ∧
    alookup (onDisconnected s).sessions "" = some { authenticated := false } := by
  have h := initializeClient_none "" s hn
  refine ⟨rfl, ?_, ?_⟩
  · show alookup (initializeClient "" s).clients "" = _
    rw [h]
    exact alookup_ainsert_self _ _ _
  · show alookup (initializeClient "" s).sessions "" = _
    rw [h]
    exact alookup_ainsert_self _ _ _

/-- C8 witness: instantiated at the empty start state. -/
theorem claim8_amended_empty_reinit_witness :
    onDisconnected initialState = initializeClient "" initialState ∧
    alookup (onDisconnected initialState).clients "" =
      some { sessionId := "", instanceId := initialState.nextInstance, initCount := 1 } ∧
    alookup (onDisconnected initialState).sessions "" =
      some { authenticated := false } :=
  claim8_amended_empty_reinit initialState rfl

/-- C4: the code evaluated at the failing input: a `send-message` for
`session_x` arriving with no live handle triggers `initializeClient` and
registers the one-shot `reconnected` flush callback, but firing that
callback resolves the identifier `sendMediaToClient`, which is defined
nowhere in src/index.js, so it throws a ReferenceError and the queued
payload is never sent — no engine call is ever made for it. -/
theorem claim4_flush_reference_error :
    (sendMessageHandler "session_x" "123" "hi" EngineResult.ok initialState).pendingFlushes
      = 1 ∧
    alookup (sendMessageHandler "session_x" "123" "hi" EngineResult.ok
        initialState).clients "session_x" =
      some { sessionId := "session_x", instanceId := 0, initCount := 1 } ∧
    (fireFlushCallback (sendMessageHandler "session_x" "123" "hi" EngineResult.ok
        initialState)).2 = FlushResult.referenceError ∧
    (fireFlushCallback (sendMessageHandler "session_x" "123" "hi" EngineResult.ok
        initialState)).1.engineSends = [] :=
  ⟨rfl, rfl, rfl, rfl⟩

end NodeApp
